import Mathlib

/-!
Verification of the on-disk configuration cache in
`src/vs/workbench/services/configuration/node/configurationCache.ts`.

The TypeScript classes `ConfigurationCache` and `CachedConfiguration` are
embedded shallowly: the file system visible to the `pfs` primitives is an
explicit state (an association list of files plus a list of existing
directories), asynchronous fallible operations become functions returning
`Except Unit _`, and the possibility of an I/O error in any one primitive is
made explicit through a record of fault flags that says which primitive
rejects during the operation under consideration.
-/

set_option autoImplicit false

namespace ConfigCacheModel

/-- Modelled from the spec: `ConfigurationKey` (declared in
`vs/workbench/services/configuration/common/configuration`, which is outside
the provided sources) is a pair `(type, key)` of strings, where `type`
distinguishes a namespace and `key` is an opaque identifier. -/
structure ConfigurationKey where
  type : String
  key : String
deriving DecidableEq

/-- The function `join` from `vs/base/common/path` as used here: joining path segments with
the separator (path normalisation is irrelevant for the segments the cache
produces). -/
def pathJoin (a b : String) : String := a ++ "/" ++ b

/-- Lookup in an association list keyed by strings; the first binding wins,
so prepending a binding overwrites. -/
def alookup {β : Type} : List (String × β) → String → Option β
  | [], _ => none
  | (q, b) :: rest, p => if p = q then some b else alookup rest p

/-- Modelled from the spec: the file-system state seen by the `pfs`
primitives — the stored files (path to text content, first binding wins) and
the set of existing directories. -/
structure FS where
  files : List (String × String)
  dirs : List String
deriving DecidableEq

/-- Modelled from the spec: which `pfs` primitives raise an I/O error while
one cache operation runs. `noFaults` is the fault-free run. -/
structure Faults where
  readFault : Bool
  existsFault : Bool
  mkdirpFault : Bool
  writeFault : Bool
  rimrafFault : Bool
deriving DecidableEq

def noFaults : Faults := ⟨false, false, false, false, false⟩

/-- Whether `p` lies strictly under directory `dir` (it extends `dir ++ "/"`). -/
def pathIsUnder (dir p : String) : Bool :=
  (dir ++ "/").data.isPrefixOf p.data

/-- What `pfs.rimraf dir` deletes: `dir` itself and everything under it. -/
def removesPath (dir p : String) : Bool :=
  p == dir || pathIsUnder dir p

/-- Modelled from the spec: `pfs.readFile` resolves with the stored content
and rejects when the file is absent or the primitive errors. -/
def pfsReadFile (f : Faults) (fs : FS) (p : String) : Except Unit String :=
  if f.readFault then .error () else
    match alookup fs.files p with
    | some c => .ok c
    | none => .error ()

/-- Modelled from the spec: `pfs.exists` resolves with whether the path
exists; rejects when the primitive errors. -/
def pfsExists (f : Faults) (fs : FS) (p : String) : Except Unit Bool :=
  if f.existsFault then .error () else .ok (decide (p ∈ fs.dirs))

/-- Modelled from the spec: `pfs.mkdirp` creates the directory; rejects (with
no state change) when the primitive errors. -/
def pfsMkdirp (f : Faults) (fs : FS) (p : String) : FS × Except Unit Unit :=
  if f.mkdirpFault then (fs, .error ())
  else ({ fs with dirs := p :: fs.dirs }, .ok ())

/-- Modelled from the spec: `pfs.writeFile` replaces the file content
entirely; rejects (with no state change) when the primitive errors. -/
def pfsWriteFile (f : Faults) (fs : FS) (p c : String) : FS × Except Unit Unit :=
  if f.writeFault then (fs, .error ())
  else ({ fs with files := (p, c) :: fs.files }, .ok ())

/-- Modelled from the spec: `pfs.rimraf` recursively deletes the directory
and its contents; deleting a non-existent path is a no-op success; rejects
(with no state change) when the primitive errors. -/
def pfsRimraf (f : Faults) (fs : FS) (p : String) : FS × Except Unit Unit :=
  if f.rimrafFault then (fs, .error ())
  else ({ files := fs.files.filter (fun e => !removesPath p e.1),
          dirs := fs.dirs.filter (fun d => !removesPath p d) }, .ok ())

/-- The two paths a `CachedConfiguration` handle owns. -/
structure CachedConfiguration where
  cachedConfigurationFolderPath : String
  cachedConfigurationFilePath : String
deriving DecidableEq

/-- The `CachedConfiguration` constructor (source lines 48–54): the folder is
`userDataPath/CachedConfigurations/type/key` and the file inside it is
`workspace.json` for the `workspaces` type, else `configuration.json`. -/
def CachedConfiguration.ofKey (userDataPath : String) (k : ConfigurationKey) :
    CachedConfiguration :=
  { cachedConfigurationFolderPath :=
      pathJoin (pathJoin (pathJoin userDataPath "CachedConfigurations") k.type) k.key
    cachedConfigurationFilePath :=
      pathJoin (pathJoin (pathJoin (pathJoin userDataPath "CachedConfigurations") k.type) k.key)
        (if k.type = "workspaces" then "workspace.json" else "configuration.json") }

/-- Method `CachedConfiguration.read` (source lines 56–63): try `readFile`, and on
any rejection resolve with the empty string. -/
def CachedConfiguration.read (f : Faults) (fs : FS) (cc : CachedConfiguration) :
    Except Unit String :=
  match pfsReadFile f fs cc.cachedConfigurationFilePath with
  | .ok content => .ok content
  | .error _ => .ok ""

/-- The `exists` step of `createCachedFolder`: `pfs.exists(...)` with a
rejection turned into `false` (`.then(undefined, () => false)`). -/
def existsOrFalse (f : Faults) (fs : FS) (p : String) : Bool :=
  match pfsExists f fs p with
  | .ok b => b
  | .error _ => false

/-- Method `CachedConfiguration.createCachedFolder` (source lines 76–80): if the
folder exists resolve `true`; otherwise `mkdirp` it, resolving `true` on
success and `false` on failure — never rejecting. -/
def CachedConfiguration.createCachedFolder (f : Faults) (fs : FS)
    (cc : CachedConfiguration) : FS × Bool :=
  if existsOrFalse f fs cc.cachedConfigurationFolderPath then (fs, true)
  else
    match pfsMkdirp f fs cc.cachedConfigurationFolderPath with
    | (fs1, .ok _) => (fs1, true)
    | (fs1, .error _) => (fs1, false)

/-- Method `CachedConfiguration.save` (source lines 65–70): create the folder; only
when that reports success, write the file (whose failure is not caught). -/
def CachedConfiguration.save (f : Faults) (fs : FS) (cc : CachedConfiguration)
    (content : String) : FS × Except Unit Unit :=
  match cc.createCachedFolder f fs with
  | (fs1, true) => pfsWriteFile f fs1 cc.cachedConfigurationFilePath content
  | (fs1, false) => (fs1, .ok ())

/-- Method `CachedConfiguration.remove` (source lines 72–74): `rimraf` the folder,
propagating any failure. -/
def CachedConfiguration.remove (f : Faults) (fs : FS) (cc : CachedConfiguration) :
    FS × Except Unit Unit :=
  pfsRimraf f fs cc.cachedConfigurationFolderPath

/-- The composite string under which a key's handle is memoized
(source line 31). -/
def compositeKey (k : ConfigurationKey) : String := k.type ++ ":" ++ k.key

/-- The `ConfigurationCache` state: the environment's user-data path and the
process-wide map of memoized handles. -/
structure ConfigurationCache where
  userDataPath : String
  cachedConfigurations : List (String × CachedConfiguration)
deriving DecidableEq

/-- A freshly constructed `ConfigurationCache` (source line 13): empty map. -/
def ConfigurationCache.init (userDataPath : String) : ConfigurationCache :=
  ⟨userDataPath, []⟩

/-- Method `ConfigurationCache.getCachedConfiguration` (source lines 30–38): look up
the composite key; on a miss construct a handle for the given key and
memoize it. -/
def ConfigurationCache.getCachedConfiguration (c : ConfigurationCache)
    (k : ConfigurationKey) : ConfigurationCache × CachedConfiguration :=
  match alookup c.cachedConfigurations (compositeKey k) with
  | some cc => (c, cc)
  | none =>
    ({ c with cachedConfigurations :=
        (compositeKey k, CachedConfiguration.ofKey c.userDataPath k)
          :: c.cachedConfigurations },
     CachedConfiguration.ofKey c.userDataPath k)

/-- Method `ConfigurationCache.read` (source lines 18–20). -/
def ConfigurationCache.read (f : Faults) (c : ConfigurationCache) (fs : FS)
    (k : ConfigurationKey) : ConfigurationCache × Except Unit String :=
  ((c.getCachedConfiguration k).1,
   (c.getCachedConfiguration k).2.read f fs)

/-- Method `ConfigurationCache.write` (source lines 22–24). -/
def ConfigurationCache.write (f : Faults) (c : ConfigurationCache) (fs : FS)
    (k : ConfigurationKey) (content : String) :
    ConfigurationCache × FS × Except Unit Unit :=
  ((c.getCachedConfiguration k).1,
   (c.getCachedConfiguration k).2.save f fs content)

/-- Method `ConfigurationCache.remove` (source lines 26–28). -/
def ConfigurationCache.remove (f : Faults) (c : ConfigurationCache) (fs : FS)
    (k : ConfigurationKey) : ConfigurationCache × FS × Except Unit Unit :=
  ((c.getCachedConfiguration k).1,
   (c.getCachedConfiguration k).2.remove f fs)

/-- A cache state is well formed when every memoized handle was built by the
constructor from some key whose composite string is its map key — true of
every state reachable from `ConfigurationCache.init`. -/
def ConfigurationCache.WF (c : ConfigurationCache) : Prop :=
  ∀ e ∈ c.cachedConfigurations,
    ∃ k, e.1 = compositeKey k ∧ e.2 = CachedConfiguration.ofKey c.userDataPath k

/-- Every list is a prefix of itself followed by anything (on character
lists, for the `pathIsUnder` predicate). -/
theorem isPrefixOf_append_self (l t : List Char) : l.isPrefixOf (l ++ t) = true := by
  induction l with
  | nil => simp
  | cons a l ih => simp [List.isPrefixOf_cons₂, ih]

/-- Joining a file name onto a directory lands strictly under it. -/
theorem pathIsUnder_join (dir fn : String) : pathIsUnder dir (pathJoin dir fn) = true := by
  unfold pathIsUnder pathJoin
  rw [String.data_append]
  exact isPrefixOf_append_self _ _

/-- Deleting a directory deletes the files joined into it. -/
theorem removesPath_join (dir fn : String) : removesPath dir (pathJoin dir fn) = true := by
  unfold removesPath
  rw [pathIsUnder_join]
  simp

/-- Looking up a key that the filter predicate rejects yields nothing. -/
theorem alookup_filter_of_removed {β : Type} (q : String → Bool) (p : String)
    (hp : q p = false) (l : List (String × β)) :
    alookup (l.filter (fun e => q e.1)) p = none := by
  induction l with
  | nil => rfl
  | cons e rest ih =>
    obtain ⟨a, b⟩ := e
    rw [List.filter_cons]
    cases he : q a with
    | true =>
      have hne : p ≠ a := by
        intro h
        rw [h, he] at hp
        exact Bool.noConfusion hp
      simp only [he, if_true]
      rw [alookup, if_neg hne]
      exact ih
    | false =>
      simpa only [he, Bool.false_eq_true, if_false] using ih

/-- A successful association-list lookup comes from a member of the list. -/
theorem alookup_mem {β : Type} {l : List (String × β)} {p : String} {b : β}
    (h : alookup l p = some b) : (p, b) ∈ l := by
  induction l with
  | nil => exact Option.noConfusion h
  | cons e rest ih =>
    obtain ⟨a, v⟩ := e
    by_cases hp : p = a
    · subst hp
      rw [alookup, if_pos rfl] at h
      injection h with h
      subst h
      exact List.mem_cons_self _ _
    · rw [alookup, if_neg hp] at h
      exact List.mem_cons_of_mem _ (ih h)

/-- After resolving a key, its composite string is bound to the returned
handle in the resulting cache state. -/
theorem getCachedConfiguration_lookup (c : ConfigurationCache) (k : ConfigurationKey) :
    alookup (c.getCachedConfiguration k).1.cachedConfigurations (compositeKey k)
      = some (c.getCachedConfiguration k).2 := by
  unfold ConfigurationCache.getCachedConfiguration
  cases h : alookup c.cachedConfigurations (compositeKey k) with
  | some cc => simp [h]
  | none => simp [h, alookup]

/-- Resolving a key whose composite string is already bound returns the
bound handle and leaves the cache unchanged. -/
theorem getCachedConfiguration_of_lookup (c : ConfigurationCache) (k : ConfigurationKey)
    (cc : CachedConfiguration)
    (h : alookup c.cachedConfigurations (compositeKey k) = some cc) :
    c.getCachedConfiguration k = (c, cc) := by
  unfold ConfigurationCache.getCachedConfiguration
  rw [h]

/-- Resolving the same key again after resolving it once is stable. -/
theorem getCachedConfiguration_stable (c : ConfigurationCache) (k : ConfigurationKey) :
    (c.getCachedConfiguration k).1.getCachedConfiguration k
      = ((c.getCachedConfiguration k).1, (c.getCachedConfiguration k).2) :=
  getCachedConfiguration_of_lookup _ _ _ (getCachedConfiguration_lookup c k)

/-- Resolving a key never changes the user-data path. -/
theorem getCachedConfiguration_userData (c : ConfigurationCache) (k : ConfigurationKey) :
    (c.getCachedConfiguration k).1.userDataPath = c.userDataPath := by
  unfold ConfigurationCache.getCachedConfiguration
  cases h : alookup c.cachedConfigurations (compositeKey k) <;> simp [h]

/-- Resolving a key does not disturb the binding of a different composite
string. -/
theorem getCachedConfiguration_lookup_other (c : ConfigurationCache) (k : ConfigurationKey)
    (s : String) (h : s ≠ compositeKey k) :
    alookup (c.getCachedConfiguration k).1.cachedConfigurations s
      = alookup c.cachedConfigurations s := by
  unfold ConfigurationCache.getCachedConfiguration
  cases hl : alookup c.cachedConfigurations (compositeKey k) with
  | some cc => simp [hl]
  | none => simp [hl, alookup, h]

/-- The handle a resolution returns depends only on the binding of the
composite string and the user-data path. -/
theorem getCachedConfiguration_snd_congr (c c' : ConfigurationCache) (k : ConfigurationKey)
    (hl : alookup c.cachedConfigurations (compositeKey k)
        = alookup c'.cachedConfigurations (compositeKey k))
    (hud : c.userDataPath = c'.userDataPath) :
    (c.getCachedConfiguration k).2 = (c'.getCachedConfiguration k).2 := by
  unfold ConfigurationCache.getCachedConfiguration
  rw [hl, hud]
  cases alookup c'.cachedConfigurations (compositeKey k) <;> rfl

/-- Resolving a key after resolving a key with a different composite string
returns the same handle as resolving it directly. -/
theorem getCachedConfiguration_other (c : ConfigurationCache) (k1 k2 : ConfigurationKey)
    (h : compositeKey k1 ≠ compositeKey k2) :
    ((c.getCachedConfiguration k2).1.getCachedConfiguration k1).2
      = (c.getCachedConfiguration k1).2 :=
  getCachedConfiguration_snd_congr _ _ _
    (getCachedConfiguration_lookup_other c k2 (compositeKey k1) h)
    (getCachedConfiguration_userData c k2)

/-- One evaluation equation for reading through the cache: the result is the
stored content of the resolved handle's file, and the empty string if the
read primitive errors or the file is absent — never a rejection. -/
theorem read_eval (f : Faults) (c : ConfigurationCache) (fs : FS) (k : ConfigurationKey) :
    (ConfigurationCache.read f c fs k).2
      = (if f.readFault then Except.ok ""
         else
           match alookup fs.files
               (c.getCachedConfiguration k).2.cachedConfigurationFilePath with
           | some s => Except.ok s
           | none => Except.ok "") := by
  unfold ConfigurationCache.read CachedConfiguration.read pfsReadFile
  cases hf : f.readFault with
  | true => simp [hf]
  | false =>
    simp only [hf, Bool.false_eq_true, if_false]
    cases alookup fs.files (c.getCachedConfiguration k).2.cachedConfigurationFilePath <;> rfl

/-- Folder creation touches only directories, never the stored files, and
never rejects. -/
theorem createCachedFolder_files (f : Faults) (fs : FS) (cc : CachedConfiguration) :
    (cc.createCachedFolder f fs).1.files = fs.files := by
  unfold CachedConfiguration.createCachedFolder pfsMkdirp
  by_cases h : existsOrFalse f fs cc.cachedConfigurationFolderPath
  · simp [h]
  · cases hm : f.mkdirpFault <;> simp [h, hm]

/-- A fault-free save stores the content under the handle's file path,
keeps every other file binding, reports success, and ends with the handle's
folder among the directories. -/
theorem save_noFaults (fs : FS) (cc : CachedConfiguration) (content : String) :
    ∃ rest, cc.save noFaults fs content
        = ({ files := (cc.cachedConfigurationFilePath, content) :: fs.files,
             dirs := rest }, Except.ok ())
      ∧ cc.cachedConfigurationFolderPath ∈ rest := by
  unfold CachedConfiguration.save CachedConfiguration.createCachedFolder
  cases h : existsOrFalse noFaults fs cc.cachedConfigurationFolderPath with
  | true =>
    refine ⟨fs.dirs, ?_, ?_⟩
    · rfl
    · have h' : decide (cc.cachedConfigurationFolderPath ∈ fs.dirs) = true := h
      exact of_decide_eq_true h'
  | false =>
    exact ⟨cc.cachedConfigurationFolderPath :: fs.dirs, rfl, List.mem_cons_self _ _⟩

@[simp] theorem noFaults_readFault : noFaults.readFault = false := rfl

@[simp] theorem noFaults_existsFault : noFaults.existsFault = false := rfl

@[simp] theorem noFaults_mkdirpFault : noFaults.mkdirpFault = false := rfl

@[simp] theorem noFaults_writeFault : noFaults.writeFault = false := rfl

@[simp] theorem noFaults_rimrafFault : noFaults.rimrafFault = false := rfl

/-- Unfolding helper: the cache component of a write. -/
theorem write_fst (f : Faults) (c : ConfigurationCache) (fs : FS) (k : ConfigurationKey)
    (content : String) :
    (ConfigurationCache.write f c fs k content).1 = (c.getCachedConfiguration k).1 := rfl

/-- Unfolding helper: the file-system component of a write. -/
theorem write_fs (f : Faults) (c : ConfigurationCache) (fs : FS) (k : ConfigurationKey)
    (content : String) :
    (ConfigurationCache.write f c fs k content).2.1
      = ((c.getCachedConfiguration k).2.save f fs content).1 := rfl

/-- Unfolding helper: the cache component of a remove. -/
theorem remove_fst (f : Faults) (c : ConfigurationCache) (fs : FS) (k : ConfigurationKey) :
    (ConfigurationCache.remove f c fs k).1 = (c.getCachedConfiguration k).1 := rfl

/-- Saving changes no file binding other than the handle's own file path. -/
theorem save_files_other (f : Faults) (fs : FS) (cc : CachedConfiguration)
    (content : String) (p : String) (hp : p ≠ cc.cachedConfigurationFilePath) :
    alookup (cc.save f fs content).1.files p = alookup fs.files p := by
  unfold CachedConfiguration.save
  cases hcf : cc.createCachedFolder f fs with
  | mk fs1 created =>
    have hfiles : fs1.files = fs.files := by
      have h := createCachedFolder_files f fs cc
      rw [hcf] at h
      exact h
    cases created with
    | true =>
      unfold pfsWriteFile
      cases hw : f.writeFault with
      | true => simpa using congrArg (fun l => alookup l p) hfiles
      | false => simp [alookup, hp, hfiles]
    | false => simpa using congrArg (fun l => alookup l p) hfiles

/-- On a well-formed cache every resolved handle has the constructor shape
for some key. -/
theorem getCachedConfiguration_shape (c : ConfigurationCache) (k : ConfigurationKey)
    (hwf : c.WF) :
    ∃ kk, (c.getCachedConfiguration k).2 = CachedConfiguration.ofKey c.userDataPath kk := by
  unfold ConfigurationCache.getCachedConfiguration
  cases h : alookup c.cachedConfigurations (compositeKey k) with
  | some cc =>
    obtain ⟨kk, -, hk2⟩ := hwf (compositeKey k, cc) (alookup_mem h)
    refine ⟨kk, ?_⟩
    simpa using hk2
  | none => exact ⟨k, rfl⟩

/-- The file path of a constructed handle is the file name joined onto its
folder path. -/
theorem ofKey_filePath_join (ud : String) (k : ConfigurationKey) :
    (CachedConfiguration.ofKey ud k).cachedConfigurationFilePath
      = pathJoin (CachedConfiguration.ofKey ud k).cachedConfigurationFolderPath
          (if k.type = "workspaces" then "workspace.json" else "configuration.json") := rfl

/-- Removing a constructed handle's folder removes its file. -/
theorem removesPath_ofKey (ud : String) (k : ConfigurationKey) :
    removesPath (CachedConfiguration.ofKey ud k).cachedConfigurationFolderPath
      (CachedConfiguration.ofKey ud k).cachedConfigurationFilePath = true := by
  rw [ofKey_filePath_join]
  exact removesPath_join _ _

/-- A fault-free write resolves successfully. -/
theorem write_noFaults_ok (c : ConfigurationCache) (fs : FS) (k : ConfigurationKey)
    (content : String) :
    (ConfigurationCache.write noFaults c fs k content).2.2 = Except.ok () := by
  obtain ⟨rest, hsave, -⟩ := save_noFaults fs (c.getCachedConfiguration k).2 content
  show ((c.getCachedConfiguration k).2.save noFaults fs content).2 = Except.ok ()
  rw [hsave]

/-- Reading a key straight after a fault-free write of that key returns the
written content. -/
theorem read_after_write_self (c : ConfigurationCache) (fs : FS) (k : ConfigurationKey)
    (content : String) :
    (ConfigurationCache.read noFaults (ConfigurationCache.write noFaults c fs k content).1
        (ConfigurationCache.write noFaults c fs k content).2.1 k).2
      = Except.ok content := by
  obtain ⟨rest, hsave, -⟩ := save_noFaults fs (c.getCachedConfiguration k).2 content
  rw [read_eval, write_fst, write_fs, getCachedConfiguration_stable, hsave]
  simp [alookup]

/-- C1: for every key, writing a content and then reading that key under
fault-free I/O succeeds and returns exactly the written content (the
round-trip of the most recent write). -/
theorem C1_write_then_read_roundtrip (c : ConfigurationCache) (fs : FS)
    (k : ConfigurationKey) (content : String) :
    (ConfigurationCache.write noFaults c fs k content).2.2 = Except.ok () ∧
    (ConfigurationCache.read noFaults (ConfigurationCache.write noFaults c fs k content).1
        (ConfigurationCache.write noFaults c fs k content).2.1 k).2
      = Except.ok content :=
  ⟨write_noFaults_ok c fs k content, read_after_write_self c fs k content⟩

/-- C2: a read never rejects — it always resolves with some string; when the
key has no stored file it resolves with the empty string, and when the read
primitive errors it also resolves with the empty string. -/
theorem C2_read_never_rejects (f : Faults) (c : ConfigurationCache) (fs : FS)
    (k : ConfigurationKey) :
    (∃ s, (ConfigurationCache.read f c fs k).2 = Except.ok s) ∧
    (alookup fs.files (c.getCachedConfiguration k).2.cachedConfigurationFilePath = none →
      (ConfigurationCache.read f c fs k).2 = Except.ok "") ∧
    (f.readFault = true →
      (ConfigurationCache.read f c fs k).2 = Except.ok "") := by
  rw [read_eval]
  cases hf : f.readFault with
  | true => exact ⟨⟨"", by simp⟩, fun _ => by simp, fun _ => by simp⟩
  | false =>
    cases hl : alookup fs.files (c.getCachedConfiguration k).2.cachedConfigurationFilePath with
    | some s =>
      refine ⟨⟨s, by simp⟩, ?_, ?_⟩
      · intro hnone
        exact Option.noConfusion hnone
      · intro hone
        exact Bool.noConfusion hone
    | none => exact ⟨⟨"", by simp⟩, fun _ => by simp, fun _ => by simp⟩

/-- C2 witness: on a fresh cache and empty file system a read of a
never-written key resolves with the empty string. -/
theorem C2_read_never_rejects_witness :
    (ConfigurationCache.read noFaults (ConfigurationCache.init "u") ⟨[], []⟩ ⟨"t", "i"⟩).2
      = Except.ok "" :=
  (C2_read_never_rejects noFaults (ConfigurationCache.init "u") ⟨[], []⟩ ⟨"t", "i"⟩).2.1 rfl

/-- C3 counterexample: the keys (type "a:b", key "c") and (type "a",
key "b:c") are distinct, yet they share the composite string "a:b:c" and
hence one memoized handle: before writing "two" under the second key a read
of the first returns its own last write "one", afterwards it returns "two",
so a write to one distinct key did change the stored content read back for
the other — refuting the claim that writes to distinct keys never
interfere. -/
theorem C3_counterexample :
    (⟨"a:b", "c"⟩ : ConfigurationKey) ≠ ⟨"a", "b:c"⟩ ∧
    (ConfigurationCache.read noFaults
        (ConfigurationCache.write noFaults (ConfigurationCache.init "u") ⟨[], []⟩
            ⟨"a:b", "c"⟩ "one").1
        (ConfigurationCache.write noFaults (ConfigurationCache.init "u") ⟨[], []⟩
            ⟨"a:b", "c"⟩ "one").2.1
        ⟨"a:b", "c"⟩).2 = Except.ok "one" ∧
    (ConfigurationCache.read noFaults
        (ConfigurationCache.write noFaults
            (ConfigurationCache.write noFaults (ConfigurationCache.init "u") ⟨[], []⟩
                ⟨"a:b", "c"⟩ "one").1
            (ConfigurationCache.write noFaults (ConfigurationCache.init "u") ⟨[], []⟩
                ⟨"a:b", "c"⟩ "one").2.1
            ⟨"a", "b:c"⟩ "two").1
        (ConfigurationCache.write noFaults
            (ConfigurationCache.write noFaults (ConfigurationCache.init "u") ⟨[], []⟩
                ⟨"a:b", "c"⟩ "one").1
            (ConfigurationCache.write noFaults (ConfigurationCache.init "u") ⟨[], []⟩
                ⟨"a:b", "c"⟩ "one").2.1
            ⟨"a", "b:c"⟩ "two").2.1
        ⟨"a:b", "c"⟩).2 = Except.ok "two" ∧
    ("two" : String) ≠ "one" :=
  ⟨by decide, rfl, rfl, by decide⟩

/-- C3 (amended): a write to one key leaves the content read back for
another key unchanged provided the two keys do not alias — their composite
strings differ and the handles they resolve to own different file paths.
(Keys with equal composite strings, or whose resolved handles share a file
path, share one stored blob and do interfere.) -/
theorem C3_amended_distinct_keys_no_interference (f g : Faults)
    (c : ConfigurationCache) (fs : FS) (k1 k2 : ConfigurationKey) (content : String)
    (hcomp : compositeKey k1 ≠ compositeKey k2)
    (hpath : (c.getCachedConfiguration k1).2.cachedConfigurationFilePath
        ≠ (c.getCachedConfiguration k2).2.cachedConfigurationFilePath) :
    (ConfigurationCache.read g (ConfigurationCache.write f c fs k2 content).1
        (ConfigurationCache.write f c fs k2 content).2.1 k1).2
      = (ConfigurationCache.read g c fs k1).2 := by
  rw [read_eval, read_eval, write_fst, write_fs,
    getCachedConfiguration_other c k1 k2 hcomp]
  cases hg : g.readFault with
  | true => rfl
  | false =>
    rw [save_files_other f fs (c.getCachedConfiguration k2).2 content
      (c.getCachedConfiguration k1).2.cachedConfigurationFilePath hpath]

/-- C3 witness: two non-aliasing keys under the same type, on a fresh cache:
writing one does not change what the other reads. -/
theorem C3_amended_distinct_keys_no_interference_witness :
    (ConfigurationCache.read noFaults
        (ConfigurationCache.write noFaults (ConfigurationCache.init "u") ⟨[], []⟩
            ⟨"t", "b"⟩ "x").1
        (ConfigurationCache.write noFaults (ConfigurationCache.init "u") ⟨[], []⟩
            ⟨"t", "b"⟩ "x").2.1
        ⟨"t", "a"⟩).2
      = (ConfigurationCache.read noFaults (ConfigurationCache.init "u") ⟨[], []⟩ ⟨"t", "a"⟩).2 :=
  C3_amended_distinct_keys_no_interference noFaults noFaults (ConfigurationCache.init "u")
    ⟨[], []⟩ ⟨"t", "a"⟩ ⟨"t", "b"⟩ "x" (by decide) (by decide)

/-- C4: two keys whose composite strings `type ++ ":" ++ key` coincide
resolve to the same memoized handle — once the first is resolved, resolving
the second returns the identical handle, and reads through the two keys
agree on any file system, even for distinct `(type, key)` pairs. -/
theorem C4_composite_collision_shares_handle (f : Faults) (c : ConfigurationCache)
    (fs : FS) (k1 k2 : ConfigurationKey) (h : compositeKey k1 = compositeKey k2) :
    ((c.getCachedConfiguration k1).1.getCachedConfiguration k2).2
      = (c.getCachedConfiguration k1).2 ∧
    (ConfigurationCache.read f (c.getCachedConfiguration k1).1 fs k2).2
      = (ConfigurationCache.read f (c.getCachedConfiguration k1).1 fs k1).2 := by
  have hl := getCachedConfiguration_lookup c k1
  have hl2 : alookup (c.getCachedConfiguration k1).1.cachedConfigurations (compositeKey k2)
      = some (c.getCachedConfiguration k1).2 := by
    rw [← h]
    exact hl
  have hg2 := getCachedConfiguration_of_lookup _ _ _ hl2
  constructor
  · rw [hg2]
  · rw [read_eval, read_eval, hg2, getCachedConfiguration_stable]

/-- C4 witness: the aliasing pair (type "a:b", key "c") and (type "a",
key "b:c") share the memoized handle on a fresh cache. -/
theorem C4_composite_collision_shares_handle_witness :
    (((ConfigurationCache.init "u").getCachedConfiguration ⟨"a:b", "c"⟩).1.getCachedConfiguration
        ⟨"a", "b:c"⟩).2
      = ((ConfigurationCache.init "u").getCachedConfiguration ⟨"a:b", "c"⟩).2 :=
  (C4_composite_collision_shares_handle noFaults (ConfigurationCache.init "u") ⟨[], []⟩
    ⟨"a:b", "c"⟩ ⟨"a", "b:c"⟩ rfl).1

/-- C5: on a well-formed cache, after a remove whose deletion primitive does
not error, the remove reports success and a subsequent read of the same key
returns the empty string, whatever was written before. -/
theorem C5_remove_then_read_empty (f g : Faults) (c : ConfigurationCache) (fs : FS)
    (k : ConfigurationKey) (hwf : c.WF) (hr : f.rimrafFault = false) :
    (ConfigurationCache.remove f c fs k).2.2 = Except.ok () ∧
    (ConfigurationCache.read g (ConfigurationCache.remove f c fs k).1
        (ConfigurationCache.remove f c fs k).2.1 k).2 = Except.ok "" := by
  obtain ⟨kk, hkk⟩ := getCachedConfiguration_shape c k hwf
  constructor
  · show (pfsRimraf f fs _).2 = Except.ok ()
    simp [pfsRimraf, hr]
  · have hlook : alookup (ConfigurationCache.remove f c fs k).2.1.files
        (c.getCachedConfiguration k).2.cachedConfigurationFilePath = none := by
      have hfs1 : (ConfigurationCache.remove f c fs k).2.1
          = { files := fs.files.filter (fun e =>
                !removesPath (c.getCachedConfiguration k).2.cachedConfigurationFolderPath e.1),
              dirs := fs.dirs.filter (fun d =>
                !removesPath (c.getCachedConfiguration k).2.cachedConfigurationFolderPath d) } := by
        show (pfsRimraf f fs _).1 = _
        simp [pfsRimraf, hr]
      rw [hfs1]
      have hrem : (!removesPath (c.getCachedConfiguration k).2.cachedConfigurationFolderPath
          (c.getCachedConfiguration k).2.cachedConfigurationFilePath) = false := by
        rw [hkk, removesPath_ofKey]
        rfl
      exact alookup_filter_of_removed
        (fun s => !removesPath (c.getCachedConfiguration k).2.cachedConfigurationFolderPath s)
        (c.getCachedConfiguration k).2.cachedConfigurationFilePath hrem fs.files
    rw [read_eval, remove_fst, getCachedConfiguration_stable]
    cases hg : g.readFault with
    | true => simp
    | false => simp [hlook]

/-- C5 witness: removing a key on a fresh cache succeeds and reading it
afterwards yields the empty string. -/
theorem C5_remove_then_read_empty_witness :
    (ConfigurationCache.remove noFaults (ConfigurationCache.init "u") ⟨[], []⟩ ⟨"t", "i"⟩).2.2
      = Except.ok () ∧
    (ConfigurationCache.read noFaults
        (ConfigurationCache.remove noFaults (ConfigurationCache.init "u") ⟨[], []⟩ ⟨"t", "i"⟩).1
        (ConfigurationCache.remove noFaults (ConfigurationCache.init "u") ⟨[], []⟩
            ⟨"t", "i"⟩).2.1 ⟨"t", "i"⟩).2 = Except.ok "" :=
  C5_remove_then_read_empty noFaults noFaults (ConfigurationCache.init "u") ⟨[], []⟩ ⟨"t", "i"⟩
    (fun e he => absurd he (List.not_mem_nil e)) rfl

/-- C6: two sequential fault-free writes to the same key leave only the
second content readable — the second write replaces the stored blob rather
than appending to it. -/
theorem C6_second_write_overwrites (c : ConfigurationCache) (fs : FS)
    (k : ConfigurationKey) (v1 v2 : String) :
    (ConfigurationCache.read noFaults
        (ConfigurationCache.write noFaults (ConfigurationCache.write noFaults c fs k v1).1
            (ConfigurationCache.write noFaults c fs k v1).2.1 k v2).1
        (ConfigurationCache.write noFaults (ConfigurationCache.write noFaults c fs k v1).1
            (ConfigurationCache.write noFaults c fs k v1).2.1 k v2).2.1 k).2
      = Except.ok v2 :=
  read_after_write_self (ConfigurationCache.write noFaults c fs k v1).1
    (ConfigurationCache.write noFaults c fs k v1).2.1 k v2

/-- C7: a write first ensures the key's folder exists and then overwrites
the key's file (fault-free part), and when the folder is absent and its
creation fails the write is silently skipped — the operation still resolves
successfully and the file system is left completely unchanged. -/
theorem C7_mkdirp_failure_silently_skips_write (f : Faults) (c : ConfigurationCache)
    (fs : FS) (k : ConfigurationKey) (content : String)
    (hmk : f.mkdirpFault = true)
    (hex : f.existsFault = true ∨
      (c.getCachedConfiguration k).2.cachedConfigurationFolderPath ∉ fs.dirs) :
    ((ConfigurationCache.write f c fs k content).2.1 = fs ∧
     (ConfigurationCache.write f c fs k content).2.2 = Except.ok ()) ∧
    (alookup (ConfigurationCache.write noFaults c fs k content).2.1.files
        (c.getCachedConfiguration k).2.cachedConfigurationFilePath = some content ∧
     (c.getCachedConfiguration k).2.cachedConfigurationFolderPath
        ∈ (ConfigurationCache.write noFaults c fs k content).2.1.dirs) := by
  have hexf : existsOrFalse f fs (c.getCachedConfiguration k).2.cachedConfigurationFolderPath
      = false := by
    unfold existsOrFalse pfsExists
    cases he : f.existsFault with
    | true => simp [he]
    | false =>
      rcases hex with h | h
      · rw [he] at h
        exact Bool.noConfusion h
      · simp [he, h]
  have hsave : (c.getCachedConfiguration k).2.save f fs content = (fs, Except.ok ()) := by
    unfold CachedConfiguration.save CachedConfiguration.createCachedFolder pfsMkdirp
    rw [hexf, hmk]
    rfl
  refine ⟨⟨?_, ?_⟩, ?_, ?_⟩
  · show ((c.getCachedConfiguration k).2.save f fs content).1 = fs
    rw [hsave]
  · show ((c.getCachedConfiguration k).2.save f fs content).2 = Except.ok ()
    rw [hsave]
  · obtain ⟨rest, hs, -⟩ := save_noFaults fs (c.getCachedConfiguration k).2 content
    show alookup ((c.getCachedConfiguration k).2.save noFaults fs content).1.files
        (c.getCachedConfiguration k).2.cachedConfigurationFilePath = some content
    rw [hs]
    simp [alookup]
  · obtain ⟨rest, hs, hm⟩ := save_noFaults fs (c.getCachedConfiguration k).2 content
    show (c.getCachedConfiguration k).2.cachedConfigurationFolderPath
        ∈ ((c.getCachedConfiguration k).2.save noFaults fs content).1.dirs
    rw [hs]
    exact hm

/-- C7 witness: with the folder absent and a failing directory creation, the
write at a concrete key resolves successfully yet changes nothing; the
fault-free write stores the content and creates the folder. -/
theorem C7_mkdirp_failure_silently_skips_write_witness :
    ((ConfigurationCache.write ⟨false, false, true, false, false⟩ (ConfigurationCache.init "u")
        ⟨[], []⟩ ⟨"t", "i"⟩ "x").2.1 = ⟨[], []⟩ ∧
     (ConfigurationCache.write ⟨false, false, true, false, false⟩ (ConfigurationCache.init "u")
        ⟨[], []⟩ ⟨"t", "i"⟩ "x").2.2 = Except.ok ()) ∧
    (alookup (ConfigurationCache.write noFaults (ConfigurationCache.init "u")
          ⟨[], []⟩ ⟨"t", "i"⟩ "x").2.1.files
        (((ConfigurationCache.init "u").getCachedConfiguration
            ⟨"t", "i"⟩).2.cachedConfigurationFilePath) = some "x" ∧
     ((ConfigurationCache.init "u").getCachedConfiguration
          ⟨"t", "i"⟩).2.cachedConfigurationFolderPath
        ∈ (ConfigurationCache.write noFaults (ConfigurationCache.init "u")
            ⟨[], []⟩ ⟨"t", "i"⟩ "x").2.1.dirs) :=
  C7_mkdirp_failure_silently_skips_write ⟨false, false, true, false, false⟩
    (ConfigurationCache.init "u") ⟨[], []⟩ ⟨"t", "i"⟩ "x" rfl
    (Or.inr (List.not_mem_nil _))

/-- C8: an error in the file-overwrite primitive of a write (reached when
the folder already exists) propagates as a rejected write, and an error in
the deletion primitive propagates as a rejected remove — neither is
swallowed. -/
theorem C8_write_and_remove_failures_propagate (f g : Faults) (c : ConfigurationCache)
    (fs : FS) (k : ConfigurationKey) (content : String)
    (hw : f.writeFault = true) (hex : f.existsFault = false)
    (hdir : (c.getCachedConfiguration k).2.cachedConfigurationFolderPath ∈ fs.dirs)
    (hg : g.rimrafFault = true) :
    (ConfigurationCache.write f c fs k content).2.2 = Except.error () ∧
    (ConfigurationCache.remove g c fs k).2.2 = Except.error () := by
  constructor
  · show ((c.getCachedConfiguration k).2.save f fs content).2 = Except.error ()
    have hexf : existsOrFalse f fs
        (c.getCachedConfiguration k).2.cachedConfigurationFolderPath = true := by
      unfold existsOrFalse pfsExists
      simp [hex, hdir]
    unfold CachedConfiguration.save CachedConfiguration.createCachedFolder pfsWriteFile
    rw [hexf, hw]
    rfl
  · show (pfsRimraf g fs _).2 = Except.error ()
    unfold pfsRimraf
    rw [hg]
    rfl

/-- C8 witness: with the key's folder present, a failing overwrite rejects
the write, and a failing deletion rejects the remove, at a concrete key. -/
theorem C8_write_and_remove_failures_propagate_witness :
    (ConfigurationCache.write ⟨false, false, false, true, false⟩ (ConfigurationCache.init "u")
        ⟨[], ["u/CachedConfigurations/t/i"]⟩ ⟨"t", "i"⟩ "x").2.2 = Except.error () ∧
    (ConfigurationCache.remove ⟨false, false, false, false, true⟩ (ConfigurationCache.init "u")
        ⟨[], ["u/CachedConfigurations/t/i"]⟩ ⟨"t", "i"⟩).2.2 = Except.error () :=
  C8_write_and_remove_failures_propagate ⟨false, false, false, true, false⟩
    ⟨false, false, false, false, true⟩ (ConfigurationCache.init "u")
    ⟨[], ["u/CachedConfigurations/t/i"]⟩ ⟨"t", "i"⟩ "x" rfl rfl (by decide) rfl

/-- C9: removing a key when nothing on the file system lies at or under the
key's folder — in particular a key never written — resolves successfully
and leaves the file system untouched (a no-op success), as long as the
deletion primitive itself does not error. -/
theorem C9_remove_unwritten_noop_success (f : Faults) (c : ConfigurationCache) (fs : FS)
    (k : ConfigurationKey) (hr : f.rimrafFault = false)
    (hfiles : ∀ e ∈ fs.files,
      removesPath (c.getCachedConfiguration k).2.cachedConfigurationFolderPath e.1 = false)
    (hdirs : ∀ d ∈ fs.dirs,
      removesPath (c.getCachedConfiguration k).2.cachedConfigurationFolderPath d = false) :
    (ConfigurationCache.remove f c fs k).2.2 = Except.ok () ∧
    (ConfigurationCache.remove f c fs k).2.1 = fs := by
  have hf : fs.files.filter (fun e =>
      !removesPath (c.getCachedConfiguration k).2.cachedConfigurationFolderPath e.1)
      = fs.files :=
    List.filter_eq_self.mpr (fun e he => by simp [hfiles e he])
  have hd : fs.dirs.filter (fun d =>
      !removesPath (c.getCachedConfiguration k).2.cachedConfigurationFolderPath d)
      = fs.dirs :=
    List.filter_eq_self.mpr (fun d hd2 => by simp [hdirs d hd2])
  constructor
  · show (pfsRimraf f fs _).2 = Except.ok ()
    simp [pfsRimraf, hr]
  · show (pfsRimraf f fs _).1 = fs
    simp [pfsRimraf, hr, hf, hd]

/-- C9 witness: removing a never-written key on an empty file system
resolves successfully and changes nothing. -/
theorem C9_remove_unwritten_noop_success_witness :
    (ConfigurationCache.remove noFaults (ConfigurationCache.init "u") ⟨[], []⟩
        ⟨"t", "i"⟩).2.2 = Except.ok () ∧
    (ConfigurationCache.remove noFaults (ConfigurationCache.init "u") ⟨[], []⟩
        ⟨"t", "i"⟩).2.1 = ⟨[], []⟩ :=
  C9_remove_unwritten_noop_success noFaults (ConfigurationCache.init "u") ⟨[], []⟩ ⟨"t", "i"⟩
    rfl (fun e he => absurd he (List.not_mem_nil e))
    (fun d hd => absurd hd (List.not_mem_nil d))

/-- C10: the storage folder of a key is derived from the base user-data
directory, the fixed subdirectory `CachedConfigurations`, the key's type
and the key's identifier; the file inside it is `workspace.json` exactly
for the `workspaces` type and `configuration.json` for every other type,
and those two file names differ. -/
theorem C10_storage_path_derivation (ud x : String) (k : ConfigurationKey)
    (hk : k.type ≠ "workspaces") :
    (CachedConfiguration.ofKey ud k).cachedConfigurationFolderPath
      = ud ++ "/" ++ "CachedConfigurations" ++ "/" ++ k.type ++ "/" ++ k.key ∧
    (CachedConfiguration.ofKey ud ⟨"workspaces", x⟩).cachedConfigurationFilePath
      = (CachedConfiguration.ofKey ud ⟨"workspaces", x⟩).cachedConfigurationFolderPath
          ++ "/" ++ "workspace.json" ∧
    (CachedConfiguration.ofKey ud k).cachedConfigurationFilePath
      = (CachedConfiguration.ofKey ud k).cachedConfigurationFolderPath
          ++ "/" ++ "configuration.json" ∧
    ("workspace.json" : String) ≠ "configuration.json" := by
  refine ⟨rfl, rfl, ?_, by decide⟩
  show pathJoin _ (if k.type = "workspaces" then "workspace.json" else "configuration.json") = _
  rw [if_neg hk]
  rfl

/-- C10 witness: the concrete paths for a non-workspaces key. -/
theorem C10_storage_path_derivation_witness :
    (CachedConfiguration.ofKey "u" ⟨"t", "i"⟩).cachedConfigurationFolderPath
      = "u" ++ "/" ++ "CachedConfigurations" ++ "/" ++ ("t" : String) ++ "/" ++ "i" ∧
    (CachedConfiguration.ofKey "u" ⟨"workspaces", "x"⟩).cachedConfigurationFilePath
      = (CachedConfiguration.ofKey "u" ⟨"workspaces", "x"⟩).cachedConfigurationFolderPath
          ++ "/" ++ "workspace.json" ∧
    (CachedConfiguration.ofKey "u" ⟨"t", "i"⟩).cachedConfigurationFilePath
      = (CachedConfiguration.ofKey "u" ⟨"t", "i"⟩).cachedConfigurationFolderPath
          ++ "/" ++ "configuration.json" ∧
    ("workspace.json" : String) ≠ "configuration.json" :=
  C10_storage_path_derivation "u" "x" ⟨"t", "i"⟩ (by decide)

end ConfigCacheModel
